import Mathlib

set_option maxRecDepth 8000

/-!
Verification of the gaze-tracking engine in gazer.js.

The development shallowly embeds the stream-processing core of the `Gazer`
class: the geometric gaze classifier (`calculateGazeDirection`), the
majority-vote temporal smoother (`smoothGazeDetection`), the presence and
attention accumulators (`updateStats`, `updateGazeStatus`), the frame
handlers (`onFaceDetectionResults`, `onFaceMeshResults`), the session reset
(`stop`) and the configuration setters (`updateSettings` and the individual
`set...` methods).

Modelling conventions:
- JS numbers are embedded as `Rat` (coordinates, thresholds) or `Nat`/`Int`
  (counters, timestamps, clamped integer options).  `Date.now()` values are
  `Nat` arguments passed to each handler.
- A JS landmark array is `List (Option Point)`: an out-of-range index or a
  hole reads as `none` (JS `undefined`, normalized to `null` by the source).
- Code that can throw a TypeError is embedded in `Except Unit`, with
  `.error ()` marking an escaped exception.
- DOM, canvas drawing, MediaPipe and camera plumbing carry no state that the
  claims mention; only the `canvasUpdates` counter of the drawing path is
  kept.  Logging and the user callbacks are side-effect free for the state,
  so they are dropped; where a callback firing matters
  (`onFaceDetected`) the handler returns a Bool flag for it.
-/

namespace Gazer

/-- The three gaze direction strings used by the source:
"screen", "away", "unknown". -/
inductive GazeDir where
  | screen
  | away
  | unknown
deriving DecidableEq, Repr, Fintype

/-- A normalized landmark point. -/
structure Point where
  x : Rat
  y : Rat
deriving DecidableEq, Repr

/-- The claim-relevant part of the `config` object.  MediaPipe, camera and
callback entries carry no state the claims mention and are omitted. -/
structure Config where
  performanceMode : Option String
  sensitivityMode : Option String
  targetFps : Int
  frameSkip : Int
  pauseOnIdle : Bool
  reducedCanvas : Bool
  idleTimeout : Int
  horizontalThreshold : Rat
  verticalThreshold : Rat
  gazeHistorySize : Int
  showGazeVector : Bool
  showEyePoints : Bool
  showFaceRectangle : Bool
  enableLogs : Bool
deriving DecidableEq, Repr

/-- The effective default configuration after the constructor has applied the
default "medium" performance and sensitivity presets (the defaults name both
presets and supply no manual overrides, so the presets win:
targetFps 15, frameSkip 2, pauseOnIdle true, reducedCanvas false,
thresholds 0.3 / 0.15, history size 5). -/
def defaultConfig : Config where
  performanceMode := some "medium"
  sensitivityMode := some "medium"
  targetFps := 15
  frameSkip := 2
  pauseOnIdle := true
  reducedCanvas := false
  idleTimeout := 3000
  horizontalThreshold := 3/10
  verticalThreshold := 3/20
  gazeHistorySize := 5
  showGazeVector := true
  showEyePoints := true
  showFaceRectangle := true
  enableLogs := true

/-- The record returned by `calculateGazeDirection` on success. -/
structure GazeData where
  direction : GazeDir
  horizontal : Rat
  vertical : Rat
  confidence : Rat
  leftEyeCenter : Point
  rightEyeCenter : Point
  faceCenter : Point
deriving DecidableEq, Repr

/-- `landmarks[i] || null`: indexing a JS array; an out-of-range index or a
hole yields `undefined`, which `|| null` turns into `null` (`none`). -/
def getLandmark (lm : List (Option Point)) (i : Nat) : Option Point :=
  (lm[i]?).getD none

/-- The arithmetic part of `calculateGazeDirection`, reached once all nine
anchor points have been dereferenced successfully (source lines 364-402). -/
def mkGaze (cfg : Config) (lo li ro ri lt lb rt rb : Point) : GazeData :=
  let leftEyeCenter : Point := ⟨(lo.x + li.x) / 2, (lt.y + lb.y) / 2⟩
  let rightEyeCenter : Point := ⟨(ro.x + ri.x) / 2, (rt.y + rb.y) / 2⟩
  let faceCenter : Point :=
    ⟨(leftEyeCenter.x + rightEyeCenter.x) / 2,
     (leftEyeCenter.y + rightEyeCenter.y) / 2⟩
  let eyeDistance : Rat := |rightEyeCenter.x - leftEyeCenter.x|
  let horizontalGaze : Rat := (faceCenter.x - 1/2) / eyeDistance
  let verticalGaze : Rat := faceCenter.y - 2/5
  let gazeDirection : GazeDir :=
    if |horizontalGaze| > cfg.horizontalThreshold then GazeDir.away
    else if |verticalGaze| > cfg.verticalThreshold then GazeDir.away
    else GazeDir.screen
  { direction := gazeDirection
    horizontal := horizontalGaze
    vertical := verticalGaze
    confidence := max (1/2) (1 - |horizontalGaze| - |verticalGaze|)
    leftEyeCenter := leftEyeCenter
    rightEyeCenter := rightEyeCenter
    faceCenter := faceCenter }

/-- `calculateGazeDirection(landmarks)` (source lines 349-403).
`.ok none` is the JS `return null`; `.ok (some g)` is a returned gaze
record; `.error ()` is an escaped TypeError.  The source normalizes all
nine anchors with `|| null` but guards only `leftEyeOuter`, `rightEyeOuter`
and `noseTip` before dereferencing; a `null` among the six unguarded
anchors therefore throws when its `.x`/`.y` is read. -/
def calculateGazeDirection (cfg : Config) (landmarks : Option (List (Option Point))) :
    Except Unit (Option GazeData) :=
  match landmarks with
  | none => .ok none
  | some lm =>
    if lm.length < 468 then .ok none
    else
      let leftEyeOuter := getLandmark lm 33
      let leftEyeInner := getLandmark lm 133
      let rightEyeOuter := getLandmark lm 362
      let rightEyeInner := getLandmark lm 263
      let noseTip := getLandmark lm 1
      let leftEyeTop := getLandmark lm 159
      let leftEyeBottom := getLandmark lm 145
      let rightEyeTop := getLandmark lm 386
      let rightEyeBottom := getLandmark lm 374
      if leftEyeOuter = none ∨ rightEyeOuter = none ∨ noseTip = none then .ok none
      else
        match leftEyeOuter, leftEyeInner, rightEyeOuter, rightEyeInner,
              leftEyeTop, leftEyeBottom, rightEyeTop, rightEyeBottom with
        | some lo, some li, some ro, some ri, some lt, some lb, some rt, some rb =>
          .ok (some (mkGaze cfg lo li ro ri lt lb rt rb))
        | _, _, _, _, _, _, _, _ => .error ()

/-- A 468-point landmark list with every point present (witness input). -/
def fullLandmarks : List (Option Point) :=
  List.replicate 468 (some ⟨1/2, 2/5⟩)

/-- A 468-point landmark list whose index 133 (left-eye inner corner) is a
hole; every other point is present (failing input for the anchor guard). -/
def holeLandmarks : List (Option Point) :=
  List.replicate 133 (some ⟨1/2, 2/5⟩) ++ none :: List.replicate 334 (some ⟨1/2, 2/5⟩)

/-- One step of the reduce that builds the per-direction tally:
`acc[gaze] = (acc[gaze] || 0) + 1`.  The association list keeps the keys in
JS object iteration order, which for these string keys is first-occurrence
(insertion) order. -/
def bump (acc : List (GazeDir × Nat)) (g : GazeDir) : List (GazeDir × Nat) :=
  if acc.any (fun p => decide (p.1 = g)) then
    acc.map (fun p => if p.1 = g then (p.1, p.2 + 1) else p)
  else acc ++ [(g, 1)]

/-- `gazeHistory.reduce((acc, gaze) => ..., {})` (source lines 414-417). -/
def gazeCounts (history : List GazeDir) : List (GazeDir × Nat) :=
  history.foldl bump []

/-- `gazeCounts[k]`: property read on the tally object (0 when absent). -/
def lookupCount (counts : List (GazeDir × Nat)) (k : GazeDir) : Nat :=
  ((counts.find? fun p => decide (p.1 = k)).map Prod.snd).getD 0

/-- The reduce callback `(a, b) => gazeCounts[a] > gazeCounts[b] ? a : b`. -/
def pickHigher (c : GazeDir → Nat) (x y : GazeDir) : GazeDir :=
  if c x > c y then x else y

/-- `Object.keys(gazeCounts).reduce((a, b) => ...)` (source lines 419-421).
`none` models the TypeError a no-initial-value reduce throws on an empty
key list. -/
def majority (counts : List (GazeDir × Nat)) : Option GazeDir :=
  match counts.map Prod.fst with
  | [] => none
  | k :: ks => some (ks.foldl (pickHigher (lookupCount counts)) k)

/-- Largest tally value reachable from initial accumulator `m` over `ks`. -/
def maxFrom (c : GazeDir → Nat) (m : Nat) (ks : List GazeDir) : Nat :=
  ks.foldl (fun acc k => max acc (c k)) m

/-- The maximal tally among the keys of `counts`. -/
def keyMax (counts : List (GazeDir × Nat)) : Nat :=
  maxFrom (lookupCount counts) 0 (counts.map Prod.fst)

/-- The LAST key in iteration (insertion) order whose tally attains the
maximum: the tie-break the code actually implements. -/
def lastMaxKey (counts : List (GazeDir × Nat)) : Option GazeDir :=
  (counts.map Prod.fst).reverse.find?
    (fun k => decide (keyMax counts ≤ lookupCount counts k))

/-- Modelled from the spec words: the FIRST-encountered maximal key in
iteration (insertion) order, the tie-break the spec asserts. -/
def specFirstMaxKey (counts : List (GazeDir × Nat)) : Option GazeDir :=
  (counts.map Prod.fst).find?
    (fun k => decide (keyMax counts ≤ lookupCount counts k))

/-- `smoothGazeDetection(currentGaze)` (source lines 406-422) as a function
of the history buffer: returns the updated buffer and the resolved
direction.  A `none` result direction models the TypeError thrown by the
empty-key reduce; a missing `currentGaze` reports "unknown" without
touching the buffer. -/
def smoothGazeDetection (cfg : Config) (history : List GazeDir)
    (currentGaze : Option GazeData) : List GazeDir × Option GazeDir :=
  match currentGaze with
  | none => (history, some GazeDir.unknown)
  | some g =>
    let h1 := history ++ [g.direction]
    let h2 := if cfg.gazeHistorySize < (h1.length : Int) then h1.tail else h1
    (h2, majority (gazeCounts h2))

/-- The claim-relevant mutable state of a `Gazer` instance.  `currentFaces`
is kept only as its length (drawing reads the boxes, which no claim
mentions); MediaPipe/camera/DOM handles, timer handles and the
tracking-data-post fields are omitted. -/
structure GazerState where
  config : Config
  isRunning : Bool
  isIdle : Bool
  currentFacesCount : Nat
  lastFaceCount : Int
  lastGazeState : Option GazeDir
  gazeHistory : List GazeDir
  faceCount : Nat
  awayStartTime : Option Nat
  totalAwayTime : Nat
  distractedStartTime : Option Nat
  totalDistractedTime : Nat
  faceCountChanges : Nat
  frameCounter : Nat
  lastFrameTime : Nat
  processingFps : Nat
  framesSkipped : Nat
  canvasUpdates : Nat
  lastIdleTime : Nat
deriving DecidableEq, Repr

/-- The state produced by `initializeState()` (source lines 229-269), with
`Date.now()` passed in as `now`. -/
def initState (cfg : Config) (now : Nat) : GazerState where
  config := cfg
  isRunning := false
  isIdle := false
  currentFacesCount := 0
  lastFaceCount := -1
  lastGazeState := none
  gazeHistory := []
  faceCount := 0
  awayStartTime := none
  totalAwayTime := 0
  distractedStartTime := none
  totalDistractedTime := 0
  faceCountChanges := 0
  frameCounter := 0
  lastFrameTime := now
  processingFps := 0
  framesSkipped := 0
  canvasUpdates := 0
  lastIdleTime := now

/-- `updateGazeStatus(gazeState, gazeData)` (source lines 507-539): records
the last reported gaze state (the `onGazeChange` callback has no state
effect) and drives the distracted-time accumulator axis from
`isDistracted = gazeState === "away"` alone. -/
def updateGazeStatus (s : GazerState) (gazeState : GazeDir) (now : Nat) : GazerState :=
  let s1 := if s.lastGazeState ≠ some gazeState
            then { s with lastGazeState := some gazeState } else s
  let isDistracted := gazeState = GazeDir.away
  if isDistracted ∧ s1.distractedStartTime = none then
    { s1 with distractedStartTime := some now }
  else if ¬ isDistracted ∧ s1.distractedStartTime ≠ none then
    { s1 with
      totalDistractedTime := s1.totalDistractedTime + (now - s1.distractedStartTime.getD 0),
      distractedStartTime := none }
  else s1

/-- `updateStats(faces)` (source lines 619-692) restricted to its state
effects: face-count bookkeeping, the change event, and the away-time
accumulator axis.  The returned Bool is true exactly when the
`faceCountChanges` counter is incremented and the `onFaceDetected`
callback fires.  The average-confidence computation and the
`onStatsUpdate` snapshot mutate nothing and are dropped. -/
def updateStats (s : GazerState) (facesLen : Nat) (now : Nat) : GazerState × Bool :=
  let s0 := { s with faceCount := facesLen }
  let changed := (facesLen : Int) ≠ s0.lastFaceCount
  let s1 := if changed then
              { s0 with faceCountChanges := s0.faceCountChanges + 1,
                        lastFaceCount := (facesLen : Int) }
            else s0
  let isAway := facesLen = 0
  let s2 :=
    if isAway ∧ s1.awayStartTime = none then
      { s1 with awayStartTime := some now }
    else if ¬ isAway ∧ s1.awayStartTime ≠ none then
      { s1 with totalAwayTime := s1.totalAwayTime + (now - s1.awayStartTime.getD 0),
                awayStartTime := none }
    else s1
  (s2, decide changed)

/-- Which branch of `onFaceDetectionResults` ran. -/
structure DetectionOutput where
  state : GazerState
  fired : Bool
  suppressedByIdle : Bool
deriving DecidableEq, Repr

/-- Frame-counter and fps-window part of `onFaceDetectionResults`
(source lines 428-435). -/
def detFpsStep (s : GazerState) (now : Nat) : GazerState :=
  let s1 := { s with frameCounter := s.frameCounter + 1 }
  if s1.lastFrameTime + 1000 ≤ now then
    { s1 with processingFps := s1.frameCounter, frameCounter := 0, lastFrameTime := now }
  else s1

/-- Idle-mode entry and exit of `onFaceDetectionResults`
(source lines 439-453). -/
def detIdleStep (s : GazerState) (facesLen : Nat) (now : Nat) : GazerState :=
  if s.config.pauseOnIdle then
    if facesLen = 0 then
      if ¬ s.isIdle ∧ s.config.idleTimeout < (now : Int) - (s.lastIdleTime : Int) then
        { s with isIdle := true }
      else s
    else
      let sa := if s.isIdle then { s with isIdle := false } else s
      { sa with lastIdleTime := now }
  else s

/-- Canvas-update counter and `updateStats` call of
`onFaceDetectionResults` (source lines 459-473). -/
def detTail (s : GazerState) (facesLen : Nat) (now : Nat) : DetectionOutput :=
  let shouldUpdateCanvas : Prop :=
    ¬ s.config.reducedCanvas ∨ (facesLen : Int) ≠ s.lastFaceCount
      ∨ 500 < ((now : Int) - (s.lastFrameTime : Int)).natAbs
  let s5 := if shouldUpdateCanvas then { s with canvasUpdates := s.canvasUpdates + 1 }
            else s
  let r := updateStats s5 facesLen now
  ⟨r.1, r.2, false⟩

/-- `onFaceDetectionResults(results)` (source lines 425-474): fps window,
idle-mode entry and exit, the idle early return, the canvas-update counter
and the call to `updateStats`.  `facesLen` is `results.detections.length`.
`fired` reports the `onFaceDetected` transition event;
`suppressedByIdle` is true when the idle early return was taken. -/
def onFaceDetectionResults (s : GazerState) (facesLen : Nat) (now : Nat) : DetectionOutput :=
  let s3 := { detFpsStep s now with currentFacesCount := facesLen }
  let s4 := detIdleStep s3 facesLen now
  if s4.isIdle ∧ s4.config.pauseOnIdle then ⟨s4, false, true⟩
  else detTail s4 facesLen now

/-- Which branch of `onFaceMeshResults` ran (when no TypeError escaped). -/
inductive MeshOutcome where
  | skippedByFrameSkip
  | suppressedByIdle
  | processed
deriving DecidableEq, Repr

/-- `onFaceMeshResults(results)` (source lines 477-504).  `results` is
`none` when `multiFaceLandmarks` is absent; otherwise the list of per-face
landmark lists.  The `currentMeshResults` stash and the drawing of gaze
indicators have no claim-relevant state.  The Int remainder agrees with
the JS `%` here because `frameCounter >= 0` and the claims use
`frameSkip >= 1`. -/
def onFaceMeshResults (s : GazerState) (results : Option (List (List (Option Point))))
    (now : Nat) : Except Unit (GazerState × MeshOutcome) :=
  if (s.frameCounter : Int) % s.config.frameSkip ≠ 0 then
    .ok ({ s with framesSkipped := s.framesSkipped + 1 }, .skippedByFrameSkip)
  else if s.isIdle ∧ s.config.pauseOnIdle then
    .ok (s, .suppressedByIdle)
  else
    match results with
    | some (landmarks :: _) =>
      match calculateGazeDirection s.config (some landmarks) with
      | .error _ => .error ()
      | .ok none => .ok (s, .processed)
      | .ok (some gazeData) =>
        let r := smoothGazeDetection s.config s.gazeHistory (some gazeData)
        let s1 := { s with gazeHistory := r.1 }
        match r.2 with
        | none => .error ()
        | some smoothed => .ok (updateGazeStatus s1 smoothed now, .processed)
    | _ => .ok (updateGazeStatus s GazeDir.unknown now, .processed)

/-- Folding a sequence of face-detection frames `(facesLen, now)` through
`onFaceDetectionResults`. -/
def runDetectionFrames (s : GazerState) (frames : List (Nat × Nat)) : GazerState :=
  frames.foldl (fun st f => (onFaceDetectionResults st f.1 f.2).state) s

/-- The state-reset part of `stop()` (source lines 817-854).  Camera
shutdown, timer and listener removal and the canvas clear have no
claim-relevant state.  Note the source does NOT reset `processingFps`. -/
def stopReset (s : GazerState) : GazerState :=
  { s with
    isRunning := false
    faceCount := 0
    lastFaceCount := -1
    awayStartTime := none
    totalAwayTime := 0
    distractedStartTime := none
    totalDistractedTime := 0
    faceCountChanges := 0
    currentFacesCount := 0
    lastGazeState := none
    gazeHistory := []
    frameCounter := 0
    framesSkipped := 0
    canvasUpdates := 0
    isIdle := false }

/-- The snapshot returned by `getStats()` (source lines 1069-1092). -/
structure Stats where
  faceCount : Nat
  faceCountChanges : Nat
  awayTime : Nat
  distractedTime : Nat
  processingFps : Nat
  framesSkipped : Nat
  canvasUpdates : Nat
  gazeState : Option GazeDir
  isRunning : Bool
  isIdle : Bool
deriving DecidableEq, Repr

/-- `getStats()` with `Date.now()` passed in as `now`. -/
def getStats (s : GazerState) (now : Nat) : Stats :=
  let currentAwayTime := s.totalAwayTime +
    (match s.awayStartTime with | some t => now - t | none => 0)
  let currentDistractedTime := s.totalDistractedTime +
    (match s.distractedStartTime with | some t => now - t | none => 0)
  { faceCount := s.faceCount
    faceCountChanges := s.faceCountChanges
    awayTime := currentAwayTime / 1000
    distractedTime := currentDistractedTime / 1000
    processingFps := s.processingFps
    framesSkipped := s.framesSkipped
    canvasUpdates := s.canvasUpdates
    gazeState := s.lastGazeState
    isRunning := s.isRunning
    isIdle := s.isIdle }

/-- Modelled from the spec words: the three presence buckets
none (0) / single (1) / multiple (>1) of the Presence Aggregator. -/
inductive FaceBucket where
  | noFace
  | oneFace
  | manyFaces
deriving DecidableEq, Repr

/-- Modelled from the spec words: which presence bucket a face count is in. -/
def specFaceBucket (n : Int) : FaceBucket :=
  if n = 0 then FaceBucket.noFace
  else if n = 1 then FaceBucket.oneFace
  else FaceBucket.manyFaces

/-- JS `parseInt` applied to a number: truncation toward zero. -/
def jsTrunc (q : Rat) : Int :=
  if q < 0 then -((-q).floor) else q.floor

/-- A JS value passed into `updateSettings`: a number, a boolean, or a
string/null.  (Numeric strings fed to `parseInt`, and the NaN produced by
coercing non-numbers, are outside the claims and not modelled.) -/
inductive SVal where
  | num : Rat → SVal
  | bool : Bool → SVal
  | str : Option String → SVal
deriving DecidableEq, Repr

/-- JS truthiness of an `SVal` (`Boolean(val)` / `!val`). -/
def jsTruthy : SVal → Bool
  | .num q => decide (q ≠ 0)
  | .bool b => b
  | .str none => false
  | .str (some t) => decide (t ≠ "")

/-- `setFrameRate(fps)` (source lines 867-871): clamp to [5, 30]. -/
def setFrameRate (s : GazerState) (fps : Rat) : GazerState :=
  { s with config := { s.config with targetFps := max 5 (min 30 (jsTrunc fps)) } }

/-- `setFrameSkip(skip)` (source lines 873-877): clamp to [1, 5]. -/
def setFrameSkip (s : GazerState) (skip : Rat) : GazerState :=
  { s with config := { s.config with frameSkip := max 1 (min 5 (jsTrunc skip)) } }

/-- `setPauseOnIdle(enabled)` (source lines 879-882). -/
def setPauseOnIdle (s : GazerState) (enabled : Bool) : GazerState :=
  { s with config := { s.config with pauseOnIdle := enabled } }

/-- `setReducedCanvas(enabled)` (source lines 884-887). -/
def setReducedCanvas (s : GazerState) (enabled : Bool) : GazerState :=
  { s with config := { s.config with reducedCanvas := enabled } }

/-- `setHorizontalThreshold(threshold)` (source lines 889-893):
clamp to [0.1, 1.0]. -/
def setHorizontalThreshold (s : GazerState) (threshold : Rat) : GazerState :=
  { s with config := { s.config with horizontalThreshold := max (1/10) (min 1 threshold) } }

/-- `setVerticalThreshold(threshold)` (source lines 895-899):
clamp to [0.05, 0.5]. -/
def setVerticalThreshold (s : GazerState) (threshold : Rat) : GazerState :=
  { s with config := { s.config with verticalThreshold := max (1/20) (min (1/2) threshold) } }

/-- `setGazeHistorySize(size)` (source lines 901-907): clamp to [2, 10] and
clear the existing history to apply the new size immediately. -/
def setGazeHistorySize (s : GazerState) (size : Rat) : GazerState :=
  { s with
    config := { s.config with gazeHistorySize := max 2 (min 10 (jsTrunc size)) }
    gazeHistory := [] }

/-- `setShowGazeVector(enabled)` (source lines 909-912). -/
def setShowGazeVector (s : GazerState) (enabled : Bool) : GazerState :=
  { s with config := { s.config with showGazeVector := enabled } }

/-- `setShowEyePoints(enabled)` (source lines 914-917). -/
def setShowEyePoints (s : GazerState) (enabled : Bool) : GazerState :=
  { s with config := { s.config with showEyePoints := enabled } }

/-- `setShowFaceRectangle(enabled)` (source lines 919-922). -/
def setShowFaceRectangle (s : GazerState) (enabled : Bool) : GazerState :=
  { s with config := { s.config with showFaceRectangle := enabled } }

/-- `setEnableLogs(enabled)` (source lines 924-927). -/
def setEnableLogs (s : GazerState) (enabled : Bool) : GazerState :=
  { s with config := { s.config with enableLogs := enabled } }

/-- `setPerformanceMode(mode)` (source lines 930-953): falsy or "manual"
clears the mode; an unknown mode only logs; a known preset overwrites the
performance group. -/
def setPerformanceModeV (s : GazerState) (v : SVal) : GazerState :=
  if jsTruthy v = false ∨ v = SVal.str (some "manual") then
    { s with config := { s.config with performanceMode := none } }
  else
    match v with
    | SVal.str (some m) =>
      if m = "low" then
        { s with config := { s.config with
            performanceMode := some m
            targetFps := 10, frameSkip := 3, pauseOnIdle := true, reducedCanvas := true } }
      else if m = "medium" then
        { s with config := { s.config with
            performanceMode := some m
            targetFps := 15, frameSkip := 2, pauseOnIdle := true, reducedCanvas := false } }
      else if m = "high" then
        { s with config := { s.config with
            performanceMode := some m
            targetFps := 25, frameSkip := 1, pauseOnIdle := false, reducedCanvas := false } }
      else s
    | _ => s

/-- `setSensitivityMode(mode)` (source lines 956-978). -/
def setSensitivityModeV (s : GazerState) (v : SVal) : GazerState :=
  if jsTruthy v = false ∨ v = SVal.str (some "manual") then
    { s with config := { s.config with sensitivityMode := none } }
  else
    match v with
    | SVal.str (some m) =>
      if m = "strict" then
        { s with config := { s.config with
            sensitivityMode := some m
            horizontalThreshold := 1/5, verticalThreshold := 1/10, gazeHistorySize := 3 } }
      else if m = "medium" then
        { s with config := { s.config with
            sensitivityMode := some m
            horizontalThreshold := 3/10, verticalThreshold := 3/20, gazeHistorySize := 5 } }
      else if m = "relaxed" then
        { s with config := { s.config with
            sensitivityMode := some m
            horizontalThreshold := 1/2, verticalThreshold := 1/4, gazeHistorySize := 7 } }
      else s
    | _ => s

/-- The `validSettings` dispatch of `updateSettings` (source lines
999-1021): a recognized key calls its setter, any other key is skipped.
Numeric setters are modelled for numeric values (a non-number would go
through `parseInt`/`parseFloat` and produce NaN, which no claim covers). -/
def applySetting (s : GazerState) (key : String) (v : SVal) : GazerState :=
  if key = "performanceMode" then setPerformanceModeV s v
  else if key = "sensitivityMode" then setSensitivityModeV s v
  else if key = "targetFps" then
    match v with | .num q => setFrameRate s q | _ => s
  else if key = "frameSkip" then
    match v with | .num q => setFrameSkip s q | _ => s
  else if key = "pauseOnIdle" then setPauseOnIdle s (jsTruthy v)
  else if key = "reducedCanvas" then setReducedCanvas s (jsTruthy v)
  else if key = "horizontalThreshold" then
    match v with | .num q => setHorizontalThreshold s q | _ => s
  else if key = "verticalThreshold" then
    match v with | .num q => setVerticalThreshold s q | _ => s
  else if key = "gazeHistorySize" then
    match v with | .num q => setGazeHistorySize s q | _ => s
  else if key = "showGazeVector" then setShowGazeVector s (jsTruthy v)
  else if key = "showEyePoints" then setShowEyePoints s (jsTruthy v)
  else if key = "showFaceRectangle" then setShowFaceRectangle s (jsTruthy v)
  else if key = "enableLogs" then setEnableLogs s (jsTruthy v)
  else s

/-- `updateSettings(settings)`: `Object.keys(settings).forEach(...)` in
insertion order, modelled as a key/value list. -/
def updateSettings (s : GazerState) (settings : List (String × SVal)) : GazerState :=
  settings.foldl (fun st kv => applySetting st kv.1 kv.2) s

/-- Whether a key is in the `validSettings` dispatch table. -/
def recognizedKey (key : String) : Bool :=
  decide (key = "performanceMode" ∨ key = "sensitivityMode" ∨ key = "targetFps"
    ∨ key = "frameSkip" ∨ key = "pauseOnIdle" ∨ key = "reducedCanvas"
    ∨ key = "horizontalThreshold" ∨ key = "verticalThreshold"
    ∨ key = "gazeHistorySize" ∨ key = "showGazeVector" ∨ key = "showEyePoints"
    ∨ key = "showFaceRectangle" ∨ key = "enableLogs")

/-- A default configuration with idle pausing disabled (C9 witness). -/
def cfgNoIdle : Config :=
  { defaultConfig with pauseOnIdle := false }

/-- C1 -- For every landmark set of at least 468 points with all required
anchor points present, `calculateGazeDirection` returns a sample whose
direction is `away` iff `|horizontalOffset| > horizontalThreshold` or
`|verticalOffset| > verticalThreshold`, and `screen` otherwise, where
`horizontalOffset = (faceCenter.x - 0.5) / eyeDistance` and
`verticalOffset = faceCenter.y - 0.4`. -/
theorem claim_C1 (cfg : Config) (lm : List (Option Point))
    (hlen : 468 ≤ lm.length)
    (p33 p133 p362 p263 p1 p159 p145 p386 p374 : Point)
    (h33 : getLandmark lm 33 = some p33)
    (h133 : getLandmark lm 133 = some p133)
    (h362 : getLandmark lm 362 = some p362)
    (h263 : getLandmark lm 263 = some p263)
    (h1 : getLandmark lm 1 = some p1)
    (h159 : getLandmark lm 159 = some p159)
    (h145 : getLandmark lm 145 = some p145)
    (h386 : getLandmark lm 386 = some p386)
    (h374 : getLandmark lm 374 = some p374) :
    ∃ g : GazeData, calculateGazeDirection cfg (some lm) = .ok (some g)
      ∧ g.horizontal = (g.faceCenter.x - 1/2) / |g.rightEyeCenter.x - g.leftEyeCenter.x|
      ∧ g.vertical = g.faceCenter.y - 2/5
      ∧ (g.direction = GazeDir.away ↔
          cfg.horizontalThreshold < |g.horizontal| ∨ cfg.verticalThreshold < |g.vertical|)
      ∧ (g.direction = GazeDir.away ∨ g.direction = GazeDir.screen) := by
  refine ⟨mkGaze cfg p33 p133 p362 p263 p159 p145 p386 p374, ?_, ?_, ?_, ?_, ?_⟩
  · simp only [calculateGazeDirection, h33, h133, h362, h263, h1, h159, h145, h386, h374]
    simp [Nat.not_lt.mpr hlen]
  · rfl
  · rfl
  · simp only [mkGaze]
    split_ifs with hh hv
    · exact iff_of_true rfl (Or.inl hh)
    · exact iff_of_true rfl (Or.inr hv)
    · exact iff_of_false (by simp) (not_or.mpr ⟨hh, hv⟩)
  · simp only [mkGaze]
    split_ifs <;> simp

/-- Witness for C1 at a concrete 468-point landmark list. -/
theorem claim_C1_witness :
    468 ≤ fullLandmarks.length ∧
    ∃ g : GazeData, calculateGazeDirection defaultConfig (some fullLandmarks) = .ok (some g)
      ∧ g.horizontal = (g.faceCenter.x - 1/2) / |g.rightEyeCenter.x - g.leftEyeCenter.x|
      ∧ g.vertical = g.faceCenter.y - 2/5
      ∧ (g.direction = GazeDir.away ↔
          defaultConfig.horizontalThreshold < |g.horizontal| ∨
          defaultConfig.verticalThreshold < |g.vertical|)
      ∧ (g.direction = GazeDir.away ∨ g.direction = GazeDir.screen) := by
  refine ⟨by simp [fullLandmarks], ?_⟩
  exact claim_C1 defaultConfig fullLandmarks (by simp [fullLandmarks])
    ⟨1/2, 2/5⟩ ⟨1/2, 2/5⟩ ⟨1/2, 2/5⟩ ⟨1/2, 2/5⟩ ⟨1/2, 2/5⟩ ⟨1/2, 2/5⟩ ⟨1/2, 2/5⟩ ⟨1/2, 2/5⟩ ⟨1/2, 2/5⟩
    (by simp [getLandmark, fullLandmarks, List.getElem?_replicate])
    (by simp [getLandmark, fullLandmarks, List.getElem?_replicate])
    (by simp [getLandmark, fullLandmarks, List.getElem?_replicate])
    (by simp [getLandmark, fullLandmarks, List.getElem?_replicate])
    (by simp [getLandmark, fullLandmarks, List.getElem?_replicate])
    (by simp [getLandmark, fullLandmarks, List.getElem?_replicate])
    (by simp [getLandmark, fullLandmarks, List.getElem?_replicate])
    (by simp [getLandmark, fullLandmarks, List.getElem?_replicate])
    (by simp [getLandmark, fullLandmarks, List.getElem?_replicate])

/-- C6 -- The claim says `calculateGazeDirection` returns null for ANY
missing required anchor and never throws.  The source guards only
`leftEyeOuter`, `rightEyeOuter` and `noseTip`; on a 468-point array whose
left-eye inner corner (index 133) is missing it dereferences `null` and a
TypeError escapes (`.error ()`), instead of returning null (`.ok none`). -/
theorem claim_C6 :
    calculateGazeDirection defaultConfig (some holeLandmarks) = .error ()
    ∧ holeLandmarks.length = 468
    ∧ getLandmark holeLandmarks 133 = none
    ∧ calculateGazeDirection defaultConfig none = .ok none := by
  refine ⟨rfl, by simp [holeLandmarks], ?_, rfl⟩
  simp [getLandmark, holeLandmarks, List.getElem?_append, List.getElem?_replicate]

theorem le_maxFrom (c : GazeDir → Nat) (ks : List GazeDir) : ∀ m, m ≤ maxFrom c m ks := by
  induction ks with
  | nil => intro m; exact Nat.le_refl m
  | cons b bs ih =>
    intro m
    have h1 : maxFrom c m (b :: bs) = maxFrom c (max m (c b)) bs := rfl
    rw [h1]
    exact Nat.le_trans (Nat.le_max_left m (c b)) (ih (max m (c b)))

theorem maxFrom_init_or_mem (c : GazeDir → Nat) (ks : List GazeDir) :
    ∀ m, maxFrom c m ks = m ∨ ∃ x ∈ ks, maxFrom c m ks = c x := by
  induction ks with
  | nil => intro m; exact Or.inl rfl
  | cons b bs ih =>
    intro m
    have h1 : maxFrom c m (b :: bs) = maxFrom c (max m (c b)) bs := rfl
    rcases ih (max m (c b)) with h | ⟨x, hx, h⟩
    · rcases Nat.le_total (c b) m with hb | hb
      · left; rw [h1, h, Nat.max_eq_left hb]
      · right; exact ⟨b, List.mem_cons_self b bs, by rw [h1, h, Nat.max_eq_right hb]⟩
    · right; exact ⟨x, List.mem_cons_of_mem b hx, by rw [h1, h]⟩

theorem c_pickHigher (c : GazeDir → Nat) (x y : GazeDir) :
    c (pickHigher c x y) = max (c x) (c y) := by
  unfold pickHigher
  split_ifs with h <;> omega

/-- The no-initial-value reduce with `counts[a] > counts[b] ? a : b` keeps
the later argument on ties, so it lands on the LAST element attaining the
maximal count. -/
theorem foldl_pickHigher_lastMax (c : GazeDir → Nat) (ks : List GazeDir) :
    ∀ a : GazeDir,
      ks.foldl (pickHigher c) a
        = (ks.reverse.find? fun x => decide (maxFrom c (c a) ks ≤ c x)).getD a := by
  induction ks with
  | nil => intro a; rfl
  | cons b bs ih =>
    intro a
    have hfold : (b :: bs).foldl (pickHigher c) a
        = bs.foldl (pickHigher c) (pickHigher c a b) := rfl
    have hmax : maxFrom c (c a) (b :: bs) = maxFrom c (c (pickHigher c a b)) bs := by
      have h2 : maxFrom c (c a) (b :: bs) = maxFrom c (max (c a) (c b)) bs := rfl
      rw [h2, c_pickHigher c a b]
    rw [hfold, ih (pickHigher c a b)]
    simp only [← hmax, List.reverse_cons, List.find?_append]
    have hca : c a ≤ maxFrom c (c a) (b :: bs) := le_maxFrom c (b :: bs) (c a)
    rcases hf : bs.reverse.find? (fun x => decide (maxFrom c (c a) (b :: bs) ≤ c x)) with _ | r
    · by_cases hb : maxFrom c (c a) (b :: bs) ≤ c b
      · have hple : ¬ (c a > c b) := by omega
        simp [List.find?, pickHigher, hple, hb]
      · have hM : maxFrom c (c a) (b :: bs) = c a := by
          rcases maxFrom_init_or_mem c (b :: bs) (c a) with h | ⟨x, hx, h⟩
          · exact h
          · rcases List.mem_cons.mp hx with rfl | hx'
            · omega
            · exfalso
              have h3 := List.find?_eq_none.mp hf x (List.mem_reverse.mpr hx')
              have h4 : ¬ (maxFrom c (c a) (b :: bs) ≤ c x) := by simpa using h3
              exact h4 (le_of_eq h)
        have hgt : c a > c b := by omega
        simp [List.find?, pickHigher, hgt, hb]
    · simp

theorem bump_ne_nil (acc : List (GazeDir × Nat)) (g : GazeDir) : bump acc g ≠ [] := by
  unfold bump
  split_ifs with h
  · intro hc
    rcases List.any_eq_true.mp h with ⟨p, hp, _⟩
    rw [List.map_eq_nil_iff] at hc
    subst hc
    simp at hp
  · simp

theorem foldl_bump_ne_nil (l : List GazeDir) :
    ∀ acc, acc ≠ [] → l.foldl bump acc ≠ [] := by
  induction l with
  | nil => intro acc h; exact h
  | cons b bs ih => intro acc _; exact ih (bump acc b) (bump_ne_nil acc b)

theorem gazeCounts_ne_nil (h : List GazeDir) (hne : h ≠ []) : gazeCounts h ≠ [] := by
  rcases h with _ | ⟨d, rest⟩
  · exact absurd rfl hne
  · show List.foldl bump (bump [] d) rest ≠ []
    exact foldl_bump_ne_nil rest (bump [] d) (bump_ne_nil [] d)

/-- On a non-empty tally, the reduce resolves to the last key in insertion
order whose count attains the maximum. -/
theorem majority_eq_lastMaxKey (counts : List (GazeDir × Nat)) (hne : counts ≠ []) :
    majority counts = lastMaxKey counts := by
  rcases counts with _ | ⟨hd, tl⟩
  · exact absurd rfl hne
  · have hmaj : majority (hd :: tl)
        = some ((tl.map Prod.fst).foldl (pickHigher (lookupCount (hd :: tl))) hd.1) := rfl
    have hkm : keyMax (hd :: tl)
        = maxFrom (lookupCount (hd :: tl)) (lookupCount (hd :: tl) hd.1) (tl.map Prod.fst) := by
      show maxFrom (lookupCount (hd :: tl)) (max 0 (lookupCount (hd :: tl) hd.1)) (tl.map Prod.fst) = _
      rw [Nat.zero_max]
    have hlast : lastMaxKey (hd :: tl)
        = ((tl.map Prod.fst).reverse ++ [hd.1]).find?
            (fun k => decide (keyMax (hd :: tl) ≤ lookupCount (hd :: tl) k)) := by
      unfold lastMaxKey
      rw [List.map_cons, List.reverse_cons]
    rw [hmaj, hlast, foldl_pickHigher_lastMax]
    simp only [← hkm, List.find?_append]
    rcases hf : (tl.map Prod.fst).reverse.find?
        (fun k => decide (keyMax (hd :: tl) ≤ lookupCount (hd :: tl) k)) with _ | r
    · have hp : keyMax (hd :: tl) ≤ lookupCount (hd :: tl) hd.1 := by
        rcases maxFrom_init_or_mem (lookupCount (hd :: tl)) (tl.map Prod.fst)
            (lookupCount (hd :: tl) hd.1) with h | ⟨x, hx, h⟩
        · rw [hkm, h]
        · exfalso
          have h3 := List.find?_eq_none.mp hf x (List.mem_reverse.mpr hx)
          have h4 : ¬ (keyMax (hd :: tl) ≤ lookupCount (hd :: tl) x) := by simpa using h3
          exact h4 (by rw [hkm, h])
      simp [List.find?, hp]
    · simp

/-- C3 (amended) -- For every non-empty smoothing history, the majority
vote resolves to the LAST-encountered maximal key in insertion
(first-occurrence) order; in particular ties between equal maximal counts
go to the direction whose first occurrence in the history is later, not
earlier as the claim states. -/
theorem claim_C3 (h : List GazeDir) (hne : h ≠ []) :
    majority (gazeCounts h) = lastMaxKey (gazeCounts h) :=
  majority_eq_lastMaxKey (gazeCounts h) (gazeCounts_ne_nil h hne)

/-- Witness for C3 (amended) at the concrete history [screen, away]. -/
theorem claim_C3_witness :
    ([GazeDir.screen, GazeDir.away] ≠ ([] : List GazeDir))
    ∧ majority (gazeCounts [GazeDir.screen, GazeDir.away])
        = lastMaxKey (gazeCounts [GazeDir.screen, GazeDir.away]) :=
  ⟨by decide, claim_C3 [GazeDir.screen, GazeDir.away] (by decide)⟩

/-- C3 counterexample -- the history [screen, away] is a tie (count 1 each,
keys inserted in that order), yet the smoother resolves it to `away`, the
LAST-encountered maximal key, while the claim predicts the first-encountered
one (`screen`). -/
theorem claim_C3_cex :
    majority (gazeCounts [GazeDir.screen, GazeDir.away]) = some GazeDir.away
    ∧ specFirstMaxKey (gazeCounts [GazeDir.screen, GazeDir.away]) = some GazeDir.screen
    ∧ lookupCount (gazeCounts [GazeDir.screen, GazeDir.away]) GazeDir.screen
        = lookupCount (gazeCounts [GazeDir.screen, GazeDir.away]) GazeDir.away
    ∧ GazeDir.away ≠ GazeDir.screen := by decide

theorem updateGazeStatus_gazeHistory (s : GazerState) (g : GazeDir) (now : Nat) :
    (updateGazeStatus s g now).gazeHistory = s.gazeHistory := by
  simp only [updateGazeStatus]
  split_ifs <;> rfl

/-- C2 (amended) -- After every `updateGazeStatus` step the distracted-time
axis is open (`distractedStartTime` non-null, time accruing) exactly when
the smoothed gaze direction passed in is `away`; the face count plays no
role in the source condition. -/
theorem claim_C2 (s : GazerState) (gazeState : GazeDir) (now : Nat) :
    (updateGazeStatus s gazeState now).distractedStartTime ≠ none
      ↔ gazeState = GazeDir.away := by
  simp only [updateGazeStatus]
  by_cases hg : gazeState = GazeDir.away <;> split_ifs with h1 h2 h3 <;> simp_all

/-- State used in the C2 counterexample: two faces are present. -/
def cexStateC2 : GazerState :=
  { initState defaultConfig 0 with faceCount := 2, currentFacesCount := 2 }

/-- C2 counterexample -- with two faces present (face count not 1), a
smoothed `away` sample still opens the distracted interval and time starts
accruing, contradicting the claim that distracted time never accrues when
the face count is not exactly 1. -/
theorem claim_C2_cex :
    (updateGazeStatus cexStateC2 GazeDir.away 100).faceCount = 2
    ∧ (updateGazeStatus cexStateC2 GazeDir.away 100).distractedStartTime = some 100 := by
  exact ⟨rfl, rfl⟩

/-- C4 (amended) -- The presence transition event (`onFaceDetected` /
`faceCountChanges` increment) fires exactly when the accepted face count
differs NUMERICALLY from the previous accepted value, not only on
none/single/multiple bucket crossings; the first accepted frame always
fires because `lastFaceCount` starts at the sentinel -1. -/
theorem claim_C4 (s : GazerState) (facesLen : Nat) (now : Nat) :
    ((updateStats s facesLen now).2 = true ↔ (facesLen : Int) ≠ s.lastFaceCount)
    ∧ ((updateStats s facesLen now).1.faceCountChanges
        = if (facesLen : Int) ≠ s.lastFaceCount then s.faceCountChanges + 1
          else s.faceCountChanges)
    ∧ (updateStats { s with lastFaceCount := -1 } facesLen now).2 = true := by
  refine ⟨?_, ?_, ?_⟩
  · simp only [updateStats]
    exact decide_eq_true_iff
  · simp only [updateStats]
    split_ifs <;> simp_all
  · simp only [updateStats]
    have h : (facesLen : Int) ≠ -1 := by omega
    simp [h]

/-- State used in the C4 counterexample: previous accepted count is 2. -/
def cexStateC4 : GazerState :=
  { initState defaultConfig 0 with lastFaceCount := 2 }

/-- C4 counterexample -- a change from 2 faces to 3 faces stays inside the
`multiple` bucket, yet the source fires the transition event and increments
`faceCountChanges`, contradicting the bucket-boundary-only claim. -/
theorem claim_C4_cex :
    (updateStats cexStateC4 3 50).2 = true
    ∧ specFaceBucket 3 = specFaceBucket cexStateC4.lastFaceCount
    ∧ (updateStats cexStateC4 3 50).1.faceCountChanges = cexStateC4.faceCountChanges + 1 := by
  exact ⟨rfl, rfl, rfl⟩

/-- C5 (amended) -- `stop()` zeroes every per-session counter and statistic
EXCEPT `processingFps`, which keeps its last value; both accumulator
open-interval starts become null, the history and gaze state are cleared,
and `stop()` is idempotent. -/
theorem claim_C5 (s : GazerState) (now : Nat) :
    getStats (stopReset s) now =
      { faceCount := 0, faceCountChanges := 0, awayTime := 0, distractedTime := 0,
        processingFps := s.processingFps, framesSkipped := 0, canvasUpdates := 0,
        gazeState := none, isRunning := false, isIdle := false }
    ∧ (stopReset s).gazeHistory = []
    ∧ (stopReset s).awayStartTime = none
    ∧ (stopReset s).distractedStartTime = none
    ∧ (stopReset s).lastFaceCount = -1
    ∧ stopReset (stopReset s) = stopReset s :=
  ⟨by simp [getStats, stopReset], rfl, rfl, rfl, rfl, rfl⟩

/-- State used in the C5 counterexample: a measured processing fps of 7. -/
def cexStateC5 : GazerState :=
  { initState defaultConfig 0 with processingFps := 7 }

/-- C5 counterexample -- after `stop()` the reported `processingFps` is
still 7, not 0: `stop()` does not reset it, contradicting the claim that
all listed statistics are zero after `stop()`. -/
theorem claim_C5_cex :
    (getStats (stopReset cexStateC5) 0).processingFps = 7
    ∧ (getStats (stopReset cexStateC5) 0).processingFps ≠ 0 := by
  exact ⟨rfl, by decide⟩

/-- C8 (amended) -- A processed frame that delivers no usable face
landmarks leaves the smoothing history buffer UNCHANGED (it is not reset
to empty): every branch of `onFaceMeshResults` on an absent or empty
`multiFaceLandmarks` preserves `gazeHistory`. -/
theorem claim_C8 (s : GazerState) (now : Nat) :
    (∃ t : GazerState × MeshOutcome,
      onFaceMeshResults s none now = .ok t ∧ t.1.gazeHistory = s.gazeHistory)
    ∧ (∃ t : GazerState × MeshOutcome,
      onFaceMeshResults s (some []) now = .ok t ∧ t.1.gazeHistory = s.gazeHistory) := by
  constructor
  all_goals
    simp only [onFaceMeshResults]
    split_ifs with h1 h2
    · exact ⟨_, rfl, rfl⟩
    · exact ⟨_, rfl, rfl⟩
    · exact ⟨_, rfl, updateGazeStatus_gazeHistory s GazeDir.unknown now⟩

/-- State used in the C8 counterexample: a non-empty smoothing history. -/
def cexStateC8 : GazerState :=
  { initState { defaultConfig with frameSkip := 1 } 0 with gazeHistory := [GazeDir.away] }

/-- C8 counterexample -- a fully processed frame (not skipped, not idle)
with no landmarks at all leaves the previous `away` sample in the history
buffer instead of resetting it to empty as the claim states. -/
theorem claim_C8_cex :
    (onFaceMeshResults cexStateC8 none 100).map (fun t => (t.1.gazeHistory, t.2))
      = .ok ([GazeDir.away], MeshOutcome.processed)
    ∧ [GazeDir.away] ≠ ([] : List GazeDir) := by
  exact ⟨rfl, by decide⟩

/-- C7 -- `updateSettings` clamps each recognized numeric option to its
documented range instead of rejecting it (targetFps to [5,30], frameSkip to
[1,5], horizontalThreshold to [0.1,1.0], verticalThreshold to [0.05,0.5],
gazeHistorySize to [2,10]; horizontalThreshold 5.0 becomes 1.0), and an
unrecognized key is silently ignored with no state change. -/
theorem claim_C7 (s : GazerState) (q : Rat) (key : String) (v : SVal)
    (hkey : recognizedKey key = false) :
    ((updateSettings s [("targetFps", SVal.num q)]).config.targetFps
        = max 5 (min 30 (jsTrunc q))
      ∧ 5 ≤ (updateSettings s [("targetFps", SVal.num q)]).config.targetFps
      ∧ (updateSettings s [("targetFps", SVal.num q)]).config.targetFps ≤ 30)
    ∧ ((updateSettings s [("frameSkip", SVal.num q)]).config.frameSkip
        = max 1 (min 5 (jsTrunc q))
      ∧ 1 ≤ (updateSettings s [("frameSkip", SVal.num q)]).config.frameSkip
      ∧ (updateSettings s [("frameSkip", SVal.num q)]).config.frameSkip ≤ 5)
    ∧ ((updateSettings s [("horizontalThreshold", SVal.num q)]).config.horizontalThreshold
        = max (1/10) (min 1 q)
      ∧ 1/10 ≤ (updateSettings s [("horizontalThreshold", SVal.num q)]).config.horizontalThreshold
      ∧ (updateSettings s [("horizontalThreshold", SVal.num q)]).config.horizontalThreshold ≤ 1)
    ∧ ((updateSettings s [("verticalThreshold", SVal.num q)]).config.verticalThreshold
        = max (1/20) (min (1/2) q)
      ∧ 1/20 ≤ (updateSettings s [("verticalThreshold", SVal.num q)]).config.verticalThreshold
      ∧ (updateSettings s [("verticalThreshold", SVal.num q)]).config.verticalThreshold ≤ 1/2)
    ∧ ((updateSettings s [("gazeHistorySize", SVal.num q)]).config.gazeHistorySize
        = max 2 (min 10 (jsTrunc q))
      ∧ 2 ≤ (updateSettings s [("gazeHistorySize", SVal.num q)]).config.gazeHistorySize
      ∧ (updateSettings s [("gazeHistorySize", SVal.num q)]).config.gazeHistorySize ≤ 10)
    ∧ (updateSettings s [("horizontalThreshold", SVal.num 5)]).config.horizontalThreshold = 1
    ∧ updateSettings s [(key, v)] = s := by
  refine ⟨⟨rfl, ?_, ?_⟩, ⟨rfl, ?_, ?_⟩, ⟨rfl, ?_, ?_⟩, ⟨rfl, ?_, ?_⟩, ⟨rfl, ?_, ?_⟩, ?_, ?_⟩
  · exact le_max_left 5 (min 30 (jsTrunc q))
  · exact max_le (by norm_num) (min_le_left 30 (jsTrunc q))
  · exact le_max_left 1 (min 5 (jsTrunc q))
  · exact max_le (by norm_num) (min_le_left 5 (jsTrunc q))
  · exact le_max_left (1/10) (min 1 q)
  · exact max_le (by norm_num) (min_le_left 1 q)
  · exact le_max_left (1/20) (min (1/2) q)
  · exact max_le (by norm_num) (min_le_left (1/2) q)
  · exact le_max_left 2 (min 10 (jsTrunc q))
  · exact max_le (by norm_num) (min_le_left 10 (jsTrunc q))
  · show max (1/10 : Rat) (min 1 5) = 1
    rw [min_eq_left (by norm_num : (1:Rat) ≤ 5)]
    exact max_eq_right (by norm_num)
  · have hk : ¬ (key = "performanceMode" ∨ key = "sensitivityMode" ∨ key = "targetFps"
        ∨ key = "frameSkip" ∨ key = "pauseOnIdle" ∨ key = "reducedCanvas"
        ∨ key = "horizontalThreshold" ∨ key = "verticalThreshold"
        ∨ key = "gazeHistorySize" ∨ key = "showGazeVector" ∨ key = "showEyePoints"
        ∨ key = "showFaceRectangle" ∨ key = "enableLogs") := by
      simpa [recognizedKey] using hkey
    push_neg at hk
    obtain ⟨k1, k2, k3, k4, k5, k6, k7, k8, k9, k10, k11, k12, k13⟩ := hk
    show applySetting s key v = s
    simp [applySetting, k1, k2, k3, k4, k5, k6, k7, k8, k9, k10, k11, k12, k13]

/-- Witness for C7 at a concrete state, value 37 and the foreign key
"bogus". -/
theorem claim_C7_witness :
    recognizedKey "bogus" = false
    ∧ (((updateSettings (initState defaultConfig 0) [("targetFps", SVal.num 37)]).config.targetFps
          = max 5 (min 30 (jsTrunc 37))
        ∧ 5 ≤ (updateSettings (initState defaultConfig 0) [("targetFps", SVal.num 37)]).config.targetFps
        ∧ (updateSettings (initState defaultConfig 0) [("targetFps", SVal.num 37)]).config.targetFps ≤ 30)
      ∧ ((updateSettings (initState defaultConfig 0) [("frameSkip", SVal.num 37)]).config.frameSkip
          = max 1 (min 5 (jsTrunc 37))
        ∧ 1 ≤ (updateSettings (initState defaultConfig 0) [("frameSkip", SVal.num 37)]).config.frameSkip
        ∧ (updateSettings (initState defaultConfig 0) [("frameSkip", SVal.num 37)]).config.frameSkip ≤ 5)
      ∧ ((updateSettings (initState defaultConfig 0) [("horizontalThreshold", SVal.num 37)]).config.horizontalThreshold
          = max (1/10) (min 1 37)
        ∧ 1/10 ≤ (updateSettings (initState defaultConfig 0) [("horizontalThreshold", SVal.num 37)]).config.horizontalThreshold
        ∧ (updateSettings (initState defaultConfig 0) [("horizontalThreshold", SVal.num 37)]).config.horizontalThreshold ≤ 1)
      ∧ ((updateSettings (initState defaultConfig 0) [("verticalThreshold", SVal.num 37)]).config.verticalThreshold
          = max (1/20) (min (1/2) 37)
        ∧ 1/20 ≤ (updateSettings (initState defaultConfig 0) [("verticalThreshold", SVal.num 37)]).config.verticalThreshold
        ∧ (updateSettings (initState defaultConfig 0) [("verticalThreshold", SVal.num 37)]).config.verticalThreshold ≤ 1/2)
      ∧ ((updateSettings (initState defaultConfig 0) [("gazeHistorySize", SVal.num 37)]).config.gazeHistorySize
          = max 2 (min 10 (jsTrunc 37))
        ∧ 2 ≤ (updateSettings (initState defaultConfig 0) [("gazeHistorySize", SVal.num 37)]).config.gazeHistorySize
        ∧ (updateSettings (initState defaultConfig 0) [("gazeHistorySize", SVal.num 37)]).config.gazeHistorySize ≤ 10)
      ∧ (updateSettings (initState defaultConfig 0) [("horizontalThreshold", SVal.num 5)]).config.horizontalThreshold = 1
      ∧ updateSettings (initState defaultConfig 0) [("bogus", SVal.num 3)] = initState defaultConfig 0) :=
  ⟨by decide, claim_C7 (initState defaultConfig 0) 37 "bogus" (SVal.num 3) (by decide)⟩

theorem detFpsStep_config (s : GazerState) (n : Nat) :
    (detFpsStep s n).config = s.config := by
  simp only [detFpsStep]
  split_ifs <;> rfl

theorem detFpsStep_isIdle (s : GazerState) (n : Nat) :
    (detFpsStep s n).isIdle = s.isIdle := by
  simp only [detFpsStep]
  split_ifs <;> rfl

theorem detIdleStep_config (s : GazerState) (f n : Nat) :
    (detIdleStep s f n).config = s.config := by
  simp only [detIdleStep]
  split_ifs <;> rfl

theorem detIdleStep_pauseFalse (s : GazerState) (f n : Nat)
    (hp : s.config.pauseOnIdle = false) : detIdleStep s f n = s := by
  simp [detIdleStep, hp]

theorem updateStats_config (s : GazerState) (f n : Nat) :
    (updateStats s f n).1.config = s.config := by
  simp only [updateStats]
  split_ifs <;> rfl

theorem updateStats_isIdle (s : GazerState) (f n : Nat) :
    (updateStats s f n).1.isIdle = s.isIdle := by
  simp only [updateStats]
  split_ifs <;> rfl

theorem detTail_config (s : GazerState) (f n : Nat) :
    (detTail s f n).state.config = s.config := by
  simp only [detTail]
  split_ifs <;> rw [updateStats_config]

theorem detTail_isIdle (s : GazerState) (f n : Nat) :
    (detTail s f n).state.isIdle = s.isIdle := by
  simp only [detTail]
  split_ifs <;> rw [updateStats_isIdle]

theorem detTail_suppressed (s : GazerState) (f n : Nat) :
    (detTail s f n).suppressedByIdle = false := rfl

theorem onFaceDetectionResults_config (s : GazerState) (f n : Nat) :
    (onFaceDetectionResults s f n).state.config = s.config := by
  simp only [onFaceDetectionResults]
  split_ifs with h
  · rw [detIdleStep_config]
    exact detFpsStep_config s n
  · rw [detTail_config, detIdleStep_config]
    exact detFpsStep_config s n

theorem onFaceDetectionResults_noIdle (s : GazerState) (f n : Nat)
    (hp : s.config.pauseOnIdle = false) :
    (onFaceDetectionResults s f n).state.isIdle = s.isIdle
    ∧ (onFaceDetectionResults s f n).suppressedByIdle = false := by
  have hp3 : ({ detFpsStep s n with currentFacesCount := f } : GazerState).config.pauseOnIdle
      = false := by
    rw [show ({ detFpsStep s n with currentFacesCount := f } : GazerState).config
        = (detFpsStep s n).config from rfl, detFpsStep_config]
    exact hp
  simp only [onFaceDetectionResults]
  rw [detIdleStep_pauseFalse { detFpsStep s n with currentFacesCount := f } f n hp3]
  rw [if_neg (fun hc => by rw [hp3] at hc; exact absurd hc.2 (by simp))]
  constructor
  · rw [detTail_isIdle]
    exact detFpsStep_isIdle s n
  · exact detTail_suppressed _ f n

theorem runDetectionFrames_noIdle (frames : List (Nat × Nat)) :
    ∀ s : GazerState, s.config.pauseOnIdle = false → s.isIdle = false →
      (runDetectionFrames s frames).config.pauseOnIdle = false
      ∧ (runDetectionFrames s frames).isIdle = false := by
  induction frames with
  | nil => intro s hp hi; exact ⟨hp, hi⟩
  | cons f fs ih =>
    intro s hp hi
    have h1 : (onFaceDetectionResults s f.1 f.2).state.config.pauseOnIdle = false := by
      rw [onFaceDetectionResults_config]; exact hp
    have h2 : (onFaceDetectionResults s f.1 f.2).state.isIdle = false := by
      rw [(onFaceDetectionResults_noIdle s f.1 f.2 hp).1]; exact hi
    exact ih (onFaceDetectionResults s f.1 f.2).state h1 h2

theorem mesh_outcome_of_not_idle (s : GazerState)
    (r : Option (List (List (Option Point)))) (now : Nat)
    (hidle : ¬ (s.isIdle ∧ s.config.pauseOnIdle)) :
    (onFaceMeshResults s r now).map Prod.snd ≠ .ok MeshOutcome.suppressedByIdle
    ∧ ((onFaceMeshResults s r now).map Prod.snd = .ok MeshOutcome.skippedByFrameSkip
        ↔ (s.frameCounter : Int) % s.config.frameSkip ≠ 0) := by
  by_cases h1 : (s.frameCounter : Int) % s.config.frameSkip ≠ 0
  · simp only [onFaceMeshResults]
    rw [if_pos h1]
    exact ⟨by simp [Except.map], by simp [Except.map, h1]⟩
  · simp only [onFaceMeshResults]
    rw [if_neg h1, if_neg hidle]
    rcases r with _ | rl
    · exact ⟨by simp [Except.map], by simp [Except.map, h1]⟩
    · rcases rl with _ | ⟨l, rest⟩
      · exact ⟨by simp [Except.map], by simp [Except.map, h1]⟩
      · cases hcg : calculateGazeDirection s.config (some l) with
        | error e =>
          simp only [hcg]
          exact ⟨by simp [Except.map], by simp [Except.map, h1]⟩
        | ok og =>
          cases og with
          | none =>
            simp only [hcg]
            exact ⟨by simp [Except.map], by simp [Except.map, h1]⟩
          | some gd =>
            simp only [hcg]
            cases hsm : (smoothGazeDetection s.config s.gazeHistory (some gd)).2 with
            | none =>
              simp only [hsm]
              exact ⟨by simp [Except.map], by simp [Except.map, h1]⟩
            | some sm =>
              simp only [hsm]
              exact ⟨by simp [Except.map], by simp [Except.map, h1]⟩

/-- C9 -- With `pauseOnIdle = false` the idle state is never entered:
`isIdle` stays false across any sequence of processed detection frames, a
detection frame is never suppressed by idle, a mesh frame is never
suppressed by idle, and a mesh frame is dropped exactly when the
frame-skip limit says so. -/
theorem claim_C9 (s0 : GazerState) (frames : List (Nat × Nat)) (f n : Nat)
    (r : Option (List (List (Option Point)))) (now : Nat)
    (hp : s0.config.pauseOnIdle = false) (hi : s0.isIdle = false) :
    (runDetectionFrames s0 frames).isIdle = false
    ∧ (onFaceDetectionResults (runDetectionFrames s0 frames) f n).suppressedByIdle = false
    ∧ (onFaceMeshResults (runDetectionFrames s0 frames) r now).map Prod.snd
        ≠ .ok MeshOutcome.suppressedByIdle
    ∧ ((onFaceMeshResults (runDetectionFrames s0 frames) r now).map Prod.snd
        = .ok MeshOutcome.skippedByFrameSkip
        ↔ ((runDetectionFrames s0 frames).frameCounter : Int)
            % (runDetectionFrames s0 frames).config.frameSkip ≠ 0) := by
  obtain ⟨hp', hi'⟩ := runDetectionFrames_noIdle frames s0 hp hi
  have hni : ¬ ((runDetectionFrames s0 frames).isIdle
      ∧ (runDetectionFrames s0 frames).config.pauseOnIdle) := by
    simp [hi']
  obtain ⟨h3, h4⟩ := mesh_outcome_of_not_idle (runDetectionFrames s0 frames) r now hni
  exact ⟨hi', (onFaceDetectionResults_noIdle (runDetectionFrames s0 frames) f n hp').2, h3, h4⟩

/-- Witness for C9 at a concrete no-idle configuration and frame trace. -/
theorem claim_C9_witness :
    (initState cfgNoIdle 0).config.pauseOnIdle = false
    ∧ (initState cfgNoIdle 0).isIdle = false
    ∧ ((runDetectionFrames (initState cfgNoIdle 0) [(1, 10), (0, 20)]).isIdle = false
      ∧ (onFaceDetectionResults (runDetectionFrames (initState cfgNoIdle 0) [(1, 10), (0, 20)]) 0 30).suppressedByIdle = false
      ∧ (onFaceMeshResults (runDetectionFrames (initState cfgNoIdle 0) [(1, 10), (0, 20)]) none 40).map Prod.snd
          ≠ .ok MeshOutcome.suppressedByIdle
      ∧ ((onFaceMeshResults (runDetectionFrames (initState cfgNoIdle 0) [(1, 10), (0, 20)]) none 40).map Prod.snd
          = .ok MeshOutcome.skippedByFrameSkip
          ↔ ((runDetectionFrames (initState cfgNoIdle 0) [(1, 10), (0, 20)]).frameCounter : Int)
              % (runDetectionFrames (initState cfgNoIdle 0) [(1, 10), (0, 20)]).config.frameSkip ≠ 0)) :=
  ⟨rfl, rfl, claim_C9 (initState cfgNoIdle 0) [(1, 10), (0, 20)] 0 30 none 40 rfl rfl⟩

/-- C10 -- The gaze history buffer length never exceeds
`config.gazeHistorySize`: if the bound holds before `smoothGazeDetection`
(push then trim one from the front), it holds after; `setGazeHistorySize`
clamps the new size to [2,10] and clears the buffer; `stop()` empties the
buffer without touching the configured size. -/
theorem claim_C10 (cfg : Config) (h : List GazeDir) (g : Option GazeData)
    (s : GazerState) (q : Rat)
    (hinv : (h.length : Int) ≤ cfg.gazeHistorySize)
    (hinv2 : (s.gazeHistory.length : Int) ≤ s.config.gazeHistorySize) :
    (((smoothGazeDetection cfg h g).1.length : Int) ≤ cfg.gazeHistorySize)
    ∧ (((setGazeHistorySize s q).gazeHistory.length : Int)
        ≤ (setGazeHistorySize s q).config.gazeHistorySize)
    ∧ (((stopReset s).gazeHistory.length : Int) ≤ (stopReset s).config.gazeHistorySize) := by
  refine ⟨?_, ?_, ?_⟩
  · rcases g with _ | gd
    · exact hinv
    · simp only [smoothGazeDetection]
      split_ifs with hlen
      · simp only [List.length_tail, List.length_append, List.length_cons, List.length_nil]
        omega
      · simp only [List.length_append, List.length_cons, List.length_nil] at hlen ⊢
        omega
  · simp only [setGazeHistorySize, List.length_nil]
    have h1 := le_max_left (2 : Int) (min 10 (jsTrunc q))
    omega
  · simp only [stopReset, List.length_nil]
    omega

/-- Witness for C10 at a concrete configuration, history and state. -/
theorem claim_C10_witness :
    ((([GazeDir.screen].length : Int) ≤ defaultConfig.gazeHistorySize)
      ∧ (((initState defaultConfig 0).gazeHistory.length : Int)
          ≤ (initState defaultConfig 0).config.gazeHistorySize))
    ∧ ((((smoothGazeDetection defaultConfig [GazeDir.screen] none).1.length : Int)
          ≤ defaultConfig.gazeHistorySize)
      ∧ (((setGazeHistorySize (initState defaultConfig 0) 37).gazeHistory.length : Int)
          ≤ (setGazeHistorySize (initState defaultConfig 0) 37).config.gazeHistorySize)
      ∧ (((stopReset (initState defaultConfig 0)).gazeHistory.length : Int)
          ≤ (stopReset (initState defaultConfig 0)).config.gazeHistorySize)) :=
  ⟨⟨by decide, by decide⟩,
    claim_C10 defaultConfig [GazeDir.screen] none (initState defaultConfig 0) 37
      (by decide) (by decide)⟩

end Gazer
